import Mathlib

/-!
Verification development for the image-embedding web backend.

The definitions below are a shallow embedding of the repository's Python
code.  External services (the PIL image library, the DashScope embedding
API, the Milvus vector database, the MinIO object store, the `md5`/`uuid`
standard-library primitives and the filesystem) are modelled as explicit
oracle parameters: each function receives the outcome of the external call
as an argument, exactly at the point where the source performs the call.
Python exceptions are modelled with `Except PyErr`; Python `None` and
optional values with `Option`; byte strings with `List Nat` (each byte
`< 256`); JSON-like response payloads with the inductive type `PyVal`.
-/

/-- JSON-like Python value, as found in deserialized API responses.
`backend/utils/process.py` inspects such values with `isinstance` checks. -/
inductive PyVal where
  | pynone
  | pybool (b : Bool)
  | pyint (n : Int)
  | pyfloat (q : ℚ)
  | pystr (s : String)
  | pylist (xs : List PyVal)
  | pydict (kvs : List (String × PyVal))
deriving Repr

/-- Python truthiness (`bool(x)`) on `PyVal`. -/
def pyTruthy : PyVal → Bool
  | .pynone => false
  | .pybool b => b
  | .pyint n => n != 0
  | .pyfloat q => q != 0
  | .pystr s => !s.isEmpty
  | .pylist xs => !xs.isEmpty
  | .pydict kvs => !kvs.isEmpty

/-- Python dict lookup `d[k]` / `d.get(k)` on an association-list model. -/
def dictLookup (kvs : List (String × PyVal)) (k : String) : Option PyVal :=
  match kvs with
  | [] => none
  | (k', v) :: rest => if k' = k then some v else dictLookup rest k

/-- Python `float(x)` applied to a JSON value.  Strings are parsed by the
interpreter's float parser, which we abstract as the oracle `strFloat`
(`none` models a raised `ValueError`).  `None`, lists and dicts raise
`TypeError`, modelled as `none`. -/
def pyFloat (strFloat : String → Option ℚ) : PyVal → Option ℚ
  | .pynone => none
  | .pybool b => some (if b then 1 else 0)
  | .pyint n => some (n : ℚ)
  | .pyfloat q => some q
  | .pystr s => strFloat s
  | .pylist _ => none
  | .pydict _ => none

/-- A DashScope API response object, as read by `getattr` in
`backend/utils/process.py` and `backend/app/service/vectorize.py`.
`status_code := none` models a missing attribute or `None`. -/
structure DashscopeResp where
  status_code : Option Int := none
  output : Option PyVal := none
  request_id : String := ""
  code : String := ""
  message : String := ""
  usage : Option PyVal := none

/-- The embedding-extraction branch of `get_embedding_from_response`
(`backend/utils/process.py` lines 114-124): if `output` is a dict whose
`"embeddings"` entry is a non-empty list, the embedding is taken from the
first element when that element is a dict with an `"embedding"` key
(otherwise the extraction yields nothing, with no fallthrough to the
`elif`); else, if the dict has an `"embedding"` entry that is a list, that
list is the embedding. -/
def extractEmbedding (out : PyVal) : Option PyVal :=
  match out with
  | .pydict kvs =>
    match dictLookup kvs "embeddings" with
    | some (.pylist (first :: _)) =>
      match first with
      | .pydict fkvs => dictLookup fkvs "embedding"
      | _ => none
    | _ =>
      match dictLookup kvs "embedding" with
      | some (.pylist xs) => some (.pylist xs)
      | _ => none
  | _ => none

/-- The normalization block of `get_embedding_from_response`
(`backend/utils/process.py` lines 126-139): a list is converted elementwise
with `float`; a dict is iterable (over its keys), so its keys are converted
with `float`; strings and bytes are explicitly excluded, and every other
value is not iterable — both yield `None`.  Any `float` failure is caught
by the surrounding `except` and yields `None`. -/
def convertEmbedding (strFloat : String → Option ℚ) : PyVal → Option (List ℚ)
  | .pylist xs => xs.mapM (pyFloat strFloat)
  | .pydict kvs => (kvs.map Prod.fst).mapM strFloat
  | _ => none

/-- `get_embedding_from_response` (`backend/utils/process.py` lines
88-149).  Returns `none` when the status code is not `200 OK`, when the
output attribute is missing or falsy, when no embedding is extracted, or
when the normalization to a list of floats fails. -/
def get_embedding_from_response (strFloat : String → Option ℚ)
    (resp : DashscopeResp) : Option (List ℚ) :=
  if resp.status_code ≠ some 200 then none
  else
    match resp.output with
    | none => none
    | some out =>
      if ¬ pyTruthy out then none
      else
        match extractEmbedding out with
        | none => none
        | some e => convertEmbedding strFloat e

/-! ## Base64 (`base64.b64encode` / `base64.b64decode`) -/

/-- The standard base64 alphabet. -/
def b64Alphabet : List Char :=
  "ABCDEFGHIJKLMNOPQRSTUVWXYZabcdefghijklmnopqrstuvwxyz0123456789+/".toList

/-- Character for a 6-bit group. -/
def b64Char (n : Nat) : Char := b64Alphabet.getD n 'A'

/-- Index of a character in the base64 alphabet (`none` for non-alphabet
characters, in particular for `'='`). -/
def b64Index (c : Char) : Option Nat := b64Alphabet.indexOf? c

/-- `base64.b64encode` grouped three input bytes at a time, producing the
usual four characters with `'='` padding. -/
def b64encodeChunks : List Nat → List Char
  | [] => []
  | [a] => [b64Char (a / 4 % 64), b64Char (a % 4 * 16), '=', '=']
  | [a, b] => [b64Char (a / 4 % 64), b64Char (a % 4 * 16 + b / 16 % 16),
               b64Char (b % 16 * 4), '=']
  | a :: b :: c :: rest =>
    b64Char (a / 4 % 64) :: b64Char (a % 4 * 16 + b / 16 % 16) ::
    b64Char (b % 16 * 4 + c / 64 % 4) :: b64Char (c % 64) ::
    b64encodeChunks rest

/-- `base64.b64encode(contents).decode("utf-8")`. -/
def b64encode (bs : List Nat) : String := String.mk (b64encodeChunks bs)

/-- Decoding of a run of base64 characters four at a time; `'='` padding is
accepted only at the very end, and a leftover group of fewer than four
characters is a padding error (`binascii.Error`, modelled as `none`). -/
def b64decodeChunks : List Char → Option (List Nat)
  | [] => some []
  | c1 :: c2 :: c3 :: c4 :: rest => do
    let s1 ← b64Index c1
    let s2 ← b64Index c2
    if c3 = '=' then
      if c4 = '=' ∧ rest = [] then some [s1 * 4 + s2 / 16] else none
    else do
      let s3 ← b64Index c3
      if c4 = '=' then
        if rest = [] then some [s1 * 4 + s2 / 16, s2 % 16 * 16 + s3 / 4]
        else none
      else do
        let s4 ← b64Index c4
        let tail ← b64decodeChunks rest
        some ((s1 * 4 + s2 / 16) :: (s2 % 16 * 16 + s3 / 4) ::
              (s3 % 4 * 64 + s4) :: tail)
  | _ => none

/-- `base64.b64decode` with its default `validate=False`: characters
outside the alphabet (other than the `'='` padding) are discarded before
decoding. -/
def pyB64decode (cs : List Char) : Option (List Nat) :=
  b64decodeChunks (cs.filter (fun c => b64Alphabet.contains c || c == '='))

/-! ## String helpers used by the data-URL and sanitization code -/

/-- Python `s.split(sep, 1)` when `sep` occurs in `s`: the parts before and
after the first occurrence.  `none` when `sep` does not occur (in which
case a two-target unpacking in the source raises `ValueError`). -/
def splitFirstAt (sep : Char) : List Char → Option (List Char × List Char)
  | [] => none
  | c :: rest =>
    if c = sep then some ([], rest)
    else (splitFirstAt sep rest).map (fun p => (c :: p.1, p.2))

/-- `os.path.basename` for POSIX paths: everything after the last `'/'`. -/
def basenamePosix (cs : List Char) : List Char :=
  (cs.reverse.takeWhile (fun c => c ≠ '/')).reverse

/-- `os.path.splitext` for POSIX paths: the extension starts at the last
`'.'` of the final path component, unless every character of that
component before the dot is itself a `'.'` (so names like `".bashrc"`
have no extension). -/
def splitextList (p : List Char) : List Char × List Char :=
  let b := basenamePosix p
  let sufRev := b.reverse.takeWhile (fun c => c ≠ '.')
  if sufRev.length = b.length then (p, [])
  else
    let pre := b.take (b.length - sufRev.length - 1)
    if pre.any (fun c => c ≠ '.') then
      (p.take (p.length - sufRev.length - 1), '.' :: sufRev.reverse)
    else (p, [])

/-- `os.path.splitext(name)[1]` as a string. -/
def pyExt (name : String) : String := String.mk (splitextList name.toList).2

/-! ## `image_to_data_url` and the data-URL branch of
`download_image_from_url` -/

/-- Python `s.startswith(pre)` on character lists. -/
def startsWithChars (s pre : List Char) : Bool :=
  match s, pre with
  | _, [] => true
  | [], _ :: _ => false
  | c :: cs, p :: ps => c == p && startsWithChars cs ps

/-- The MIME type chosen by `image_to_data_url`
(`backend/utils/process.py` line 83): the given `content_type` when it is
truthy and starts with `"image/"`, else `"image/jpeg"`. -/
def mimeOf (content_type : Option String) : String :=
  match content_type with
  | some ct =>
    if ct ≠ "" ∧ startsWithChars ct.toList "image/".toList then ct
    else "image/jpeg"
  | none => "image/jpeg"

/-- Character list of the data URL built by `image_to_data_url`. -/
def dataUrlChars (contents : List Nat) (content_type : Option String) :
    List Char :=
  "data:".toList ++ (mimeOf content_type).toList ++ ";base64,".toList ++
    b64encodeChunks contents

/-- `image_to_data_url` (`backend/utils/process.py` lines 72-85):
`f"data:{mime};base64,{b64}"`. -/
def image_to_data_url (contents : List Nat) (content_type : Option String) :
    String :=
  String.mk (dataUrlChars contents content_type)

/-- The data-URL branch of `download_image_from_url`
(`backend/app/service/imgcompare.py` lines 234-252): when the URL starts
with `"data:image/"`, split it at the first `','`; the MIME type is
`header.split(":")[1].split(";")[0]` and the bytes are the base64 decoding
of the remainder.  Every failure inside the branch raises `ValueError`,
modelled as `none`; a non-data URL takes the HTTP download branch, which is
outside this claim and also modelled as `none` here. -/
def downloadDataChars (cs : List Char) : Option (List Nat × String) :=
  if startsWithChars cs "data:image/".toList then
    match splitFirstAt ',' cs with
    | none => none
    | some (header, dat) =>
      match splitFirstAt ':' header with
      | none => none
      | some (_, afterColon) =>
        let mime := (afterColon.takeWhile (fun c => c ≠ ':')).takeWhile
          (fun c => c ≠ ';')
        match pyB64decode dat with
        | none => none
        | some bytes => some (bytes, String.mk mime)
  else none

/-- `download_image_from_url` on its data-URL input, as a function of the
URL string. -/
def download_image_from_url_data (url : String) :
    Option (List Nat × String) :=
  downloadDataChars url.toList

/-! ## Filename/folder sanitization (`backend/utils/stringutils.py`) -/

/-- `contains_non_ascii`: true when `text.encode('ascii')` raises, i.e.
when some character has a code point above 127 (an empty string is
explicitly false). -/
def contains_non_ascii (text : String) : Bool :=
  if text = "" then false
  else text.toList.any (fun c => 128 ≤ c.toNat)

/-- Characters kept by `re.sub(r'[^a-zA-Z0-9_-]', '_', ...)`. -/
def folderAllowedChar (c : Char) : Bool :=
  c.isAlpha || c.isDigit || c = '_' || c = '-'

/-- `sanitize_folder_name` (`backend/utils/stringutils.py` lines 30-50).
`md5hex` is the `hashlib.md5(...).hexdigest()` oracle. -/
def sanitize_folder_name (md5hex : String → String) (folder_name : String) :
    String :=
  if folder_name = "" then "uploads"
  else if contains_non_ascii folder_name then
    String.mk ("folder_".toList ++ (md5hex folder_name).toList.take 12)
  else
    let sanitized := String.mk (folder_name.toList.map
      (fun c => if folderAllowedChar c then c else '_'))
    if sanitized = "" then "uploads" else sanitized

/-- Characters kept by `re.sub(r'[^a-zA-Z0-9_.-]', '_', ...)`. -/
def fileAllowedChar (c : Char) : Bool :=
  c.isAlpha || c.isDigit || c = '_' || c = '.' || c = '-'

/-- ASCII lowercasing, modelling Python `str.lower()` (which agrees with
this table on ASCII; non-ASCII characters with case mappings are outside
the paths exercised here and are left unchanged by the model). -/
def pyLowerAscii (c : Char) : Char :=
  match c with
  | 'A' => 'a' | 'B' => 'b' | 'C' => 'c' | 'D' => 'd' | 'E' => 'e'
  | 'F' => 'f' | 'G' => 'g' | 'H' => 'h' | 'I' => 'i' | 'J' => 'j'
  | 'K' => 'k' | 'L' => 'l' | 'M' => 'm' | 'N' => 'n' | 'O' => 'o'
  | 'P' => 'p' | 'Q' => 'q' | 'R' => 'r' | 'S' => 's' | 'T' => 't'
  | 'U' => 'u' | 'V' => 'v' | 'W' => 'w' | 'X' => 'x' | 'Y' => 'y'
  | 'Z' => 'z' | other => other

/-- The extension `sanitize_filename` appends: the lowercased
`os.path.splitext` extension of the filename, or `".jpg"` when there is
none. -/
def fileExtChosen (filename : String) : List Char :=
  let e := (splitextList filename.toList).2.map pyLowerAscii
  if e = [] then ".jpg".toList else e

/-- `sanitize_filename` (`backend/utils/stringutils.py` lines 53-80).
`uuidHex` is the `uuid.uuid4().hex` oracle (32 hex characters). -/
def sanitize_filename (uuidHex : String) (filename : String) : String :=
  if filename = "" then String.mk (uuidHex.toList.take 16 ++ ".jpg".toList)
  else
    let fileExt := fileExtChosen filename
    let fileBase := basenamePosix (splitextList filename.toList).1
    if contains_non_ascii (String.mk fileBase) then
      String.mk (uuidHex.toList.take 16 ++ fileExt)
    else
      let sanitized := fileBase.map
        (fun c => if fileAllowedChar c then c else '_')
      if sanitized = [] then String.mk (uuidHex.toList.take 16 ++ fileExt)
      else String.mk (sanitized ++ fileExt)

/-! ## Hash id (`backend/utils/mdhash.py`) -/

/-- `compute_args_hash` on a single string argument, with the `md5`
hexdigest as an oracle. -/
def compute_args_hash (md5hex : String → String) (args : List String) :
    String :=
  md5hex (String.join args)

/-- `compute_mdhash_id(content, prefix)`: the prefix followed by the md5
hash of the content. -/
def compute_mdhash_id (md5hex : String → String) (content : String)
    (pre : String := "") : String :=
  pre ++ compute_args_hash md5hex [content]

/-! ## Python exceptions -/

/-- Python exception values relevant to the modelled code paths. -/
inductive PyErr where
  | valueErr (msg : String)
  | osErr (msg : String)
  | s3Err (msg : String)
  | indexErr (msg : String)
  | generic (msg : String)
deriving Repr, DecidableEq

/-- `traceback.format_exc()`: the formatted-traceback string for the
exception currently being handled (modelled as a function of the
exception value). -/
def traceback_format_exc : PyErr → String
  | .valueErr m => "Traceback (most recent call last): ValueError: " ++ m
  | .osErr m => "Traceback (most recent call last): OSError: " ++ m
  | .s3Err m => "Traceback (most recent call last): S3Error: " ++ m
  | .indexErr m => "Traceback (most recent call last): IndexError: " ++ m
  | .generic m => "Traceback (most recent call last): Exception: " ++ m

/-! ## Milvus wrapper (`backend/storage/vdb/milvusdb.py` and
`backend/storage/milvus_client.py`) -/

/-- One hit returned by `MilvusClient.search`: a `distance` plus the
requested output fields. -/
structure SearchHit where
  distance : ℚ
  fields : List (String × String) := []
deriving Repr, DecidableEq

/-- `MilvusDB.search_data` of `backend/storage/vdb/milvusdb.py` (lines
117-133), the variant invoked by `search_image_service`.  `clientSearch`
is the external `MilvusClient.search` call, a function of exactly the
arguments the wrapper passes to it (collection name, query data, limit);
the `cosine` parameter is accepted but never forwarded.  The wrapper keeps
the hits with `distance > 0.8` and returns `filtered_results[0]`
(an out-of-range index raises, modelled as `none`). -/
def search_data (clientSearch : String → Option (List ℚ) → Nat → List (List SearchHit))
    (defaultCollection : String) (data : Option (List ℚ)) (top_k : Nat)
    (cosine : ℚ) (collection_name : Option String) : Option (List SearchHit) :=
  let cn := match collection_name with
    | some c => if c = "" then defaultCollection else c
    | none => defaultCollection
  let results := clientSearch cn data top_k
  let filtered := results.map
    (fun result => result.filter (fun r => mkRat 4 5 < r.distance))
  filtered.head?

/-- `MilvusDB.search_data` of `backend/storage/milvus_client.py` (lines
127-143): identical filtering, but the whole per-query list of filtered
result lists is returned. -/
def search_data_milvus_client
    (clientSearch : String → Option (List ℚ) → Nat → List (List SearchHit))
    (defaultCollection : String) (data : Option (List ℚ)) (top_k : Nat)
    (cosine : ℚ) (collection_name : Option String) : List (List SearchHit) :=
  let cn := match collection_name with
    | some c => if c = "" then defaultCollection else c
    | none => defaultCollection
  (clientSearch cn data top_k).map
    (fun result => result.filter (fun r => mkRat 4 5 < r.distance))

/-! ## DTOs (`backend/app/schema/imgsearch.py`) -/

/-- `OneImageUploadDTO`: the pydantic model declares exactly these four
fields. -/
structure OneImageUploadDTO where
  file_name : String := ""
  file_data : List Nat := []
  file_type : String := ""
  file_class : String := "test"
deriving Repr, DecidableEq

/-- The `OneImageUploadDTO(**{...})` construction performed by
`api_upload_image` (`backend/app/api/upload.py` lines 135-144).  The
keyword arguments `file_description` and `file_url` are not fields of the
pydantic model, and pydantic's default `extra` policy silently ignores
unknown keyword arguments, so they are dropped. -/
def buildUploadDTO (file_data : List Nat) (file_name file_type file_class : String)
    (file_description : Option String) (file_url : String) : OneImageUploadDTO :=
  { file_data := file_data, file_name := file_name,
    file_type := file_type, file_class := file_class }

/-! ## Vectorization service (`backend/app/service/vectorize.py`) -/

/-- `validate_image` (`backend/utils/process.py` lines 54-69): PIL's
`Image.open(...).verify()` wrapped in `try/except`; the PIL outcome is the
oracle `pilValid`. -/
def validate_image (pilValid : List Nat → Bool) (contents : List Nat) : Bool :=
  pilValid contents

/-- The dict built and returned by `vectorize_image`
(`backend/app/service/vectorize.py` lines 65-72); its `"output"` entry is
the (possibly `None`) cleaned embedding. -/
structure VectorizeResult where
  status_code : Option Int
  request_id : String
  code : String
  message : String
  output : Option (List ℚ)
  usage : Option PyVal
deriving Repr

/-- External calls made by the services, recorded in an explicit log so
that "no API call was issued" is a provable statement. -/
inductive ExtCall where
  | dashscopeEmbed (dataUrl : String)
  | dashscopeVlm
  | minioPut (objectName : String)
  | milvusInsert
  | milvusSearch
deriving Repr, DecidableEq

/-- `vectorize_image` (`backend/app/service/vectorize.py` lines 24-82) for
the configured provider `"dashscope"` (the default in
`backend/core/configs/config.py`).  Oracles: `pilValid` (PIL), `apiCall`
(the `MultiModalEmbedding.call` response for a given data URL).  When
validation fails a `ValueError` is raised before any API call (the log is
empty).  When no embedding can be extracted, the source builds
`ValueError("图像向量为None")` but never raises it (line 63 lacks `raise`),
so the function still returns the response dict. -/
def vectorize_image (strFloat : String → Option ℚ)
    (pilValid : List Nat → Bool) (apiCall : String → DashscopeResp)
    (file_data : List Nat) (file_type : String) :
    Except PyErr VectorizeResult × List ExtCall :=
  if ¬ validate_image pilValid file_data then
    (.error (.valueErr "图片文件解析失败"), [])
  else
    let data_url := image_to_data_url file_data (some file_type)
    let resp := apiCall data_url
    let embedding := get_embedding_from_response strFloat resp
    (.ok { status_code := resp.status_code, request_id := resp.request_id,
           code := resp.code, message := resp.message, output := embedding,
           usage := resp.usage },
     [.dashscopeEmbed data_url])

/-! ## Insert service (`backend/app/service/imginsert.py`) -/

/-- A value stored in a Milvus row dict. -/
inductive MilvusVal where
  | str (s : String)
  | vec (v : List ℚ)
  | pynull
deriving Repr, DecidableEq

/-- The vector entry of the inserted row: `None` or a float list. -/
def milvusValOfEmb : Option (List ℚ) → MilvusVal
  | some v => .vec v
  | none => .pynull

/-- The `data_raw` row dict built by `insert_image_service`
(`backend/app/service/imginsert.py` lines 41-47). -/
def insert_data_raw (md5hex : String → String) (dto : OneImageUploadDTO)
    (embedding : Option (List ℚ)) : List (String × MilvusVal) :=
  [("class_id", .str (compute_mdhash_id md5hex dto.file_class)),
   ("class_name", .str dto.file_class),
   ("file_path", .str dto.file_name),
   ("file_content", .str ""),
   ("vector", milvusValOfEmb embedding)]

/-- `insert_image_service` (`backend/app/service/imginsert.py` lines
16-55): vectorize, read `vector_response.get("output", [])` (the key is
always present, so its value — possibly `None` — is used), build the row
and hand it to `MilvusDB.insert_data`.  The observable result is the row
passed to the external insert call; a raised exception propagates. -/
def insert_image_service (md5hex : String → String)
    (strFloat : String → Option ℚ) (pilValid : List Nat → Bool)
    (apiCall : String → DashscopeResp) (dto : OneImageUploadDTO) :
    Except PyErr (List (String × MilvusVal)) × List ExtCall :=
  match vectorize_image strFloat pilValid apiCall dto.file_data dto.file_type with
  | (.error e, log) => (.error e, log)
  | (.ok vr, log) =>
    let embedding := vr.output
    let row := insert_data_raw md5hex dto embedding
    (.ok row, log ++ [.milvusInsert])

/-! ## Search service (`backend/app/service/imgsearch.py`) -/

/-- `search_image_service` (`backend/app/service/imgsearch.py` lines
13-45): vectorize, read the `"output"` entry, and call
`milvus_client.search_data(embedding, top_k=5, cosine=0.25)` on the
`backend/storage/vdb/milvusdb.py` client. -/
def search_image_service (strFloat : String → Option ℚ)
    (pilValid : List Nat → Bool) (apiCall : String → DashscopeResp)
    (clientSearch : String → Option (List ℚ) → Nat → List (List SearchHit))
    (defaultCollection : String) (file_data : List Nat) (file_type : String) :
    Except PyErr (List SearchHit) × List ExtCall :=
  match vectorize_image strFloat pilValid apiCall file_data file_type with
  | (.error e, log) => (.error e, log)
  | (.ok vr, log) =>
    let embedding := vr.output
    match search_data clientSearch defaultCollection embedding 5 (mkRat 1 4) none with
    | none => (.error (.indexErr "list index out of range"), log ++ [.milvusSearch])
    | some hits => (.ok hits, log ++ [.milvusSearch])

/-! ## Compare service (`backend/app/service/imgcompare.py`) -/

/-- The fields of `ImageCompareDTO` used by the validation gate. -/
structure ImageCompareDTO where
  image1_data : List Nat
  image1_type : String
  image2_data : List Nat
  image2_type : String
  scene_description : String
deriving Repr

/-- `compare_images_service` (`backend/app/service/imgcompare.py` lines
30-210).  Both images are validated first; a failing image raises
`ValueError` before the vision-language API is called.  The remainder of
the function (the `MultiModalConversation.call` and the parsing of the
model's free-text reply) only runs after both validations pass; its
outcome is abstracted as the oracle `vlmOutcome`, since the claims settled
here concern only the validation gate and the call log. -/
def compare_images_service (pilValid : List Nat → Bool)
    (vlmOutcome : Except PyErr (Bool × ℚ × String))
    (dto : ImageCompareDTO) :
    Except PyErr (Bool × ℚ × String) × List ExtCall :=
  if ¬ validate_image pilValid dto.image1_data then
    (.error (.valueErr "第一张图片文件解析失败"), [])
  else if ¬ validate_image pilValid dto.image2_data then
    (.error (.valueErr "第二张图片文件解析失败"), [])
  else
    (vlmOutcome, [.dashscopeVlm])

/-! ## HTTP envelope and endpoints (`backend/app/schema/response.py`,
`backend/app/api/search.py`, `backend/app/api/upload.py`) -/

/-- `ApiResponse`: the envelope has exactly the three fields `code`, `msg`
and `data` (`backend/app/schema/response.py` lines 9-16).  `data: Any`
holds a string or `None` on the modelled endpoints. -/
structure ApiResponse where
  code : Int := 200
  msg : String := ""
  data : Option String := none
deriving Repr, DecidableEq

/-- `MessageCode.SUCCESS` (`backend/core/errors/error_types.py`). -/
def MessageCodeSUCCESS : Int := 200

/-- `MessageCode.FAIL`. -/
def MessageCodeFAIL : Int := 201

/-- `MessageStatus.SUCCESS`. -/
def MessageStatusSUCCESS : String := "成功"

/-- `MessageStatus.FAIL`. -/
def MessageStatusFAIL : String := "失败"

/-- The `search_image` endpoint (`backend/app/api/search.py` lines
33-72).  The temporary-directory creation (lines 36-38) runs BEFORE the
`try` block, so an exception there propagates out of the handler; inside
the `try`, the file read, the temp-file write and the search service run
in order, and any exception is mapped to the failure envelope whose `data`
is `traceback.format_exc()`.  `pyFormat` models the f-string rendering of
the service result. -/
def search_image_endpoint (mkdirRes : Except PyErr Unit)
    (readRes : Except PyErr (List Nat)) (writeRes : Except PyErr Unit)
    (svc : List Nat → Except PyErr (List SearchHit))
    (pyFormat : List SearchHit → String) : Except PyErr ApiResponse :=
  match mkdirRes with
  | .error e => .error e
  | .ok _ =>
    let body : Except PyErr (List SearchHit) := do
      let d ← readRes
      let _ ← writeRes
      svc d
    .ok (match body with
      | .ok hits =>
        { code := MessageCodeSUCCESS, msg := MessageStatusSUCCESS,
          data := some (pyFormat hits) }
      | .error e =>
        { code := MessageCodeFAIL, msg := MessageStatusFAIL,
          data := some (traceback_format_exc e) })

/-- One entry of the per-file status lists built by `api_upload_image` and
`api_search_image`: a Python dict whose values are strings, row dicts or
hit lists. -/
inductive PyEntryVal where
  | s (v : String)
  | row (r : List (String × MilvusVal))
  | hits (hs : List SearchHit)
deriving Repr, DecidableEq

/-- `ALLOWED_EXTENSIONS` (`backend/app/api/upload.py` line 22 and
`backend/app/api/search.py` line 18). -/
def ALLOWED_EXTENSIONS : List String := [".jpg", ".jpeg", ".png", ".bmp"]

/-- One uploaded file together with its zipped category and description
(`zip(files, categories, descriptions)`, `backend/app/api/upload.py`
line 95). -/
structure UploadFileIn where
  filename : String
  content_type : String
  category : String
  description : String
  data : List Nat
deriving Repr

/-- The external-world outcomes consumed by `api_upload_image`, as
functions of the arguments the handler passes. -/
structure UploadOracles where
  /-- `get_minio_client()` before the loop (can raise inside the `try`). -/
  getMinio : Except PyErr Unit
  /-- `os.makedirs` for the per-category temp dir. -/
  mkdir : String → Except PyErr Unit
  /-- `await uploaded_file.read()`. -/
  readOk : String → Except PyErr Unit
  /-- `minio_client.upload_file`, returning the file URL. -/
  minio : String → List Nat → Except PyErr String
  /-- The per-file temp backup write. -/
  tmpWrite : String → Except PyErr Unit
  /-- `insert_image_service` run in a worker thread, returning the row it
  inserted. -/
  insertSvc : OneImageUploadDTO → Except PyErr (List (String × MilvusVal))
  /-- `hashlib.md5` hexdigest. -/
  md5hex : String → String
  /-- `uuid.uuid4().hex` for `sanitize_filename`. -/
  uuidHex : String
  /-- `str(uuid.uuid4())[:8]` for the object name. -/
  uuid8 : String
  /-- `datetime.now().strftime("%Y-%m-%d")`. -/
  dateStr : String
  /-- f-string rendering of the status list. -/
  fmtEntries : List (List (String × PyEntryVal)) → String

/-- The MinIO object name built for one uploaded file
(`backend/app/api/upload.py` lines 113-117). -/
def uploadObjectName (o : UploadOracles) (f : UploadFileIn) : String :=
  let folder_path := sanitize_folder_name o.md5hex
    (if f.category = "" then "uploads" else f.category)
  folder_path ++ "/" ++ o.dateStr ++ "/" ++ o.uuid8 ++ "-" ++
    sanitize_filename o.uuidHex f.filename

/-- Processing of one file by the `api_upload_image` loop body
(`backend/app/api/upload.py` lines 95-152): make the temp dir, skip the
file with a `fail` status entry if its extension is not allowed, read it,
try the MinIO upload (a failure is caught and leaves `file_url = ""`),
write the temp backup, then run the insert service.  Returns the status
entry and the log of external calls. -/
def processUploadFile (o : UploadOracles) (f : UploadFileIn) :
    Except PyErr (List (String × PyEntryVal) × List ExtCall) := do
  let _ ← o.mkdir f.category
  if pyExt f.filename ∉ ALLOWED_EXTENSIONS then
    return ([("filename", .s f.filename), ("filestatus", .s "fail")], [])
  else do
    let _ ← o.readOk f.filename
    let objectName := uploadObjectName o f
    let file_url := match o.minio objectName f.data with
      | .ok url => url
      | .error _ => ""
    let _ ← o.tmpWrite f.filename
    let dto := buildUploadDTO f.data f.filename f.content_type f.category
      (some f.description) file_url
    let row ← o.insertSvc dto
    return ([("filename", .s f.filename), ("file_url", .s file_url),
             ("vectorize_data", .row row)],
            [.minioPut objectName, .milvusInsert])

/-- The request loop: files are processed in order and the first raised
exception aborts the loop (the Python `for` inside the `try`). -/
def processAll {α β : Type} (g : α → Except PyErr β) : List α → Except PyErr (List β)
  | [] => .ok []
  | f :: rest => do
    let r ← g f
    let rs ← processAll g rest
    return r :: rs

/-- The `api_upload_image` endpoint (`backend/app/api/upload.py` lines
85-164): everything runs inside one `try`; the first exception aborts the
loop and produces the failure envelope carrying the formatted traceback,
otherwise the success envelope carries the rendered status list. -/
def api_upload_image (o : UploadOracles) (files : List UploadFileIn) :
    ApiResponse :=
  match (do
      let _ ← o.getMinio
      processAll (fun f => processUploadFile o f) files :
      Except PyErr (List (List (String × PyEntryVal) × List ExtCall))) with
  | .ok results =>
    { code := MessageCodeSUCCESS, msg := MessageStatusSUCCESS,
      data := some (o.fmtEntries (results.map Prod.fst)) }
  | .error e =>
    { code := MessageCodeFAIL, msg := MessageStatusFAIL,
      data := some (traceback_format_exc e) }

/-- One file submitted to `api_search_image`. -/
structure SearchFileIn where
  filename : String
  content_type : String
  data : List Nat
deriving Repr

/-- The external-world outcomes consumed by `api_search_image`. -/
structure SearchOracles where
  /-- `os.makedirs` for the `predict` temp dir — BEFORE the `try`. -/
  mkdirPredict : Except PyErr Unit
  /-- `await uploaded_file.read()`. -/
  readOk : String → Except PyErr Unit
  /-- The per-file temp write. -/
  tmpWrite : String → Except PyErr Unit
  /-- `search_image_service` run in a worker thread. -/
  searchSvc : SearchFileIn → Except PyErr (List SearchHit)
  /-- f-string rendering of the status list. -/
  fmtEntries : List (List (String × PyEntryVal)) → String

/-- Processing of one file by the `api_search_image` loop body
(`backend/app/api/search.py` lines 92-129). -/
def processSearchFile (o : SearchOracles) (f : SearchFileIn) :
    Except PyErr (List (String × PyEntryVal) × List ExtCall) := do
  if pyExt f.filename ∉ ALLOWED_EXTENSIONS then
    return ([("filename", .s f.filename), ("filestatus", .s "fail"),
             ("fileresult", .hits [])], [])
  else do
    let _ ← o.readOk f.filename
    let _ ← o.tmpWrite f.filename
    let hits ← o.searchSvc f
    return ([("filename", .s f.filename), ("filestatus", .s "success"),
             ("fileresult", .hits hits)], [.milvusSearch])

/-- The `api_search_image` endpoint (`backend/app/api/search.py` lines
83-141).  The `predict` temp-dir creation (lines 88-90) runs BEFORE the
`try` block, so an exception there propagates; inside the `try` the loop
accumulates per-file entries and the first exception produces the failure
envelope. -/
def api_search_image (o : SearchOracles) (files : List SearchFileIn) :
    Except PyErr ApiResponse :=
  match o.mkdirPredict with
  | .error e => .error e
  | .ok _ =>
    .ok (match processAll (fun f => processSearchFile o f) files with
      | .ok results =>
        { code := MessageCodeSUCCESS, msg := MessageStatusSUCCESS,
          data := some (o.fmtEntries (results.map Prod.fst)) }
      | .error e =>
        { code := MessageCodeFAIL, msg := MessageStatusFAIL,
          data := some (traceback_format_exc e) })

/-! ## Claims -/

/-- C1: every result returned by the `search_data` wrapper of
`backend/storage/vdb/milvusdb.py` (as invoked by `search_image_service`)
has distance strictly greater than `0.8`, the `cosine` argument has no
effect on the result (it is never forwarded to the underlying client
call), and the same threshold holds for every result list of the
`backend/storage/milvus_client.py` variant. -/
theorem search_data_threshold_cosine_irrelevant
    (clientSearch : String → Option (List ℚ) → Nat → List (List SearchHit))
    (defaultCollection : String) (data : Option (List ℚ)) (top_k : Nat)
    (c₁ c₂ : ℚ) (cn : Option String) (hits : List SearchHit)
    (h : search_data clientSearch defaultCollection data top_k c₁ cn = some hits) :
    (∀ r ∈ hits, mkRat 4 5 < r.distance) ∧
    search_data clientSearch defaultCollection data top_k c₁ cn =
      search_data clientSearch defaultCollection data top_k c₂ cn ∧
    (∀ l ∈ search_data_milvus_client clientSearch defaultCollection data
        top_k c₁ cn, ∀ r ∈ l, mkRat 4 5 < r.distance) := by
  refine ⟨?_, rfl, ?_⟩
  · intro r hr
    simp [search_data] at h
    obtain ⟨a, _, rfl⟩ := h
    simp at hr
    exact hr.2
  · intro l hl r hr
    simp [search_data_milvus_client] at hl
    obtain ⟨res, _, rfl⟩ := hl
    simp at hr
    exact hr.2

/-- C1 witness: a concrete client returning distances `1` and `1/2`;
the wrapper keeps only the first, and the filtered hit indeed has
distance above `0.8`. -/
theorem search_data_threshold_cosine_irrelevant_witness :
    mkRat 4 5 < ({ distance := 1, fields := [] } : SearchHit).distance :=
  (search_data_threshold_cosine_irrelevant
    (fun _ _ _ => [[{ distance := 1, fields := [] },
                    { distance := mkRat 1 2, fields := [] }]])
    "product_image" (some [1]) 5 (mkRat 1 4) (mkRat 1 2) none
    [{ distance := 1, fields := [] }] (by decide)).1
    { distance := 1, fields := [] } (by decide)

/-- C5: when image validation fails, `vectorize_image` raises `ValueError`
with an empty external-call log (no embedding API call), and
`compare_images_service` raises `ValueError` for a failing first or second
image with an empty log (no vision-language API call). -/
theorem validation_gate_raises_before_api
    (strFloat : String → Option ℚ) (pilValid : List Nat → Bool)
    (apiCall : String → DashscopeResp)
    (vlmOutcome : Except PyErr (Bool × ℚ × String))
    (d : List Nat) (t : String) (dto : ImageCompareDTO) :
    (validate_image pilValid d = false →
      vectorize_image strFloat pilValid apiCall d t =
        (.error (.valueErr "图片文件解析失败"), [])) ∧
    (validate_image pilValid dto.image1_data = false →
      compare_images_service pilValid vlmOutcome dto =
        (.error (.valueErr "第一张图片文件解析失败"), [])) ∧
    (validate_image pilValid dto.image1_data = true →
      validate_image pilValid dto.image2_data = false →
      compare_images_service pilValid vlmOutcome dto =
        (.error (.valueErr "第二张图片文件解析失败"), [])) := by
  refine ⟨fun h1 => ?_, fun h2 => ?_, fun h3 h4 => ?_⟩
  · simp [vectorize_image, h1]
  · simp [compare_images_service, h2]
  · simp [compare_images_service, h3, h4]

/-- C5 witness: with a PIL oracle accepting only `[1]`, the byte string
`[2]` is rejected by `vectorize_image` with no API call, and a compare
request with a valid first image and invalid second image is rejected
with no vision-language call. -/
theorem validation_gate_raises_before_api_witness :
    vectorize_image (fun _ => none) (fun bs => bs == [1])
        (fun _ => {}) [2] "image/jpeg" =
      (.error (.valueErr "图片文件解析失败"), []) ∧
    compare_images_service (fun bs => bs == [1]) (.ok (true, 1, "r"))
        { image1_data := [2], image1_type := "image/jpeg",
          image2_data := [1], image2_type := "image/jpeg",
          scene_description := "s" } =
      (.error (.valueErr "第一张图片文件解析失败"), []) ∧
    compare_images_service (fun bs => bs == [1]) (.ok (true, 1, "r"))
        { image1_data := [1], image1_type := "image/jpeg",
          image2_data := [2], image2_type := "image/jpeg",
          scene_description := "s" } =
      (.error (.valueErr "第二张图片文件解析失败"), []) := by
  refine ⟨?_, ?_, ?_⟩
  · exact (validation_gate_raises_before_api (fun _ => none)
      (fun bs => bs == [1]) (fun _ => {}) (.ok (true, 1, "r")) [2]
      "image/jpeg" ⟨[2], "image/jpeg", [1], "image/jpeg", "s"⟩).1 (by decide)
  · exact (validation_gate_raises_before_api (fun _ => none)
      (fun bs => bs == [1]) (fun _ => {}) (.ok (true, 1, "r")) [2]
      "image/jpeg" ⟨[2], "image/jpeg", [1], "image/jpeg", "s"⟩).2.1 (by decide)
  · exact (validation_gate_raises_before_api (fun _ => none)
      (fun bs => bs == [1]) (fun _ => {}) (.ok (true, 1, "r")) [2]
      "image/jpeg" ⟨[1], "image/jpeg", [2], "image/jpeg", "s"⟩).2.2
      (by decide) (by decide)

/-- C9: when the embedding API responds but no embedding is extracted
(`None` or the empty list), `vectorize_image` does not raise — the
`ValueError("图像向量为None")` on line 63 of
`backend/app/service/vectorize.py` is constructed but never raised — and
returns the response dict with that value as `output`; downstream,
`insert_image_service` passes it to the vector-database insert as the
`"vector"` entry of the row. -/
theorem unraised_valueerror_passes_empty_vector
    (md5hex : String → String) (strFloat : String → Option ℚ)
    (pilValid : List Nat → Bool) (apiCall : String → DashscopeResp)
    (dto : OneImageUploadDTO) (emb : Option (List ℚ))
    (hvalid : validate_image pilValid dto.file_data = true)
    (hembdef : get_embedding_from_response strFloat
      (apiCall (image_to_data_url dto.file_data (some dto.file_type))) = emb)
    (hemb : emb = none ∨ emb = some []) :
    vectorize_image strFloat pilValid apiCall dto.file_data dto.file_type =
      (.ok { status_code := (apiCall (image_to_data_url dto.file_data
               (some dto.file_type))).status_code,
             request_id := (apiCall (image_to_data_url dto.file_data
               (some dto.file_type))).request_id,
             code := (apiCall (image_to_data_url dto.file_data
               (some dto.file_type))).code,
             message := (apiCall (image_to_data_url dto.file_data
               (some dto.file_type))).message,
             output := emb,
             usage := (apiCall (image_to_data_url dto.file_data
               (some dto.file_type))).usage },
       [.dashscopeEmbed (image_to_data_url dto.file_data (some dto.file_type))]) ∧
    insert_image_service md5hex strFloat pilValid apiCall dto =
      (.ok (insert_data_raw md5hex dto emb),
       [.dashscopeEmbed (image_to_data_url dto.file_data (some dto.file_type)),
        .milvusInsert]) ∧
    ("vector", milvusValOfEmb emb) ∈ insert_data_raw md5hex dto emb ∧
    (emb = none → milvusValOfEmb emb = .pynull) ∧
    (emb = some [] → milvusValOfEmb emb = .vec []) := by
  have hvec : vectorize_image strFloat pilValid apiCall dto.file_data
      dto.file_type =
      (.ok { status_code := (apiCall (image_to_data_url dto.file_data
               (some dto.file_type))).status_code,
             request_id := (apiCall (image_to_data_url dto.file_data
               (some dto.file_type))).request_id,
             code := (apiCall (image_to_data_url dto.file_data
               (some dto.file_type))).code,
             message := (apiCall (image_to_data_url dto.file_data
               (some dto.file_type))).message,
             output := emb,
             usage := (apiCall (image_to_data_url dto.file_data
               (some dto.file_type))).usage },
       [.dashscopeEmbed (image_to_data_url dto.file_data (some dto.file_type))]) := by
    simp [vectorize_image, hvalid, hembdef]
  refine ⟨hvec, ?_, ?_, ?_, ?_⟩
  · simp [insert_image_service, hvec]
  · simp [insert_data_raw]
  · intro h; simp [h, milvusValOfEmb]
  · intro h; simp [h, milvusValOfEmb]

/-- C9 witness: a `200 OK` response whose output dict has an empty
`"embedding"` list; the service returns normally and the inserted row's
`"vector"` entry is the empty vector. -/
theorem unraised_valueerror_passes_empty_vector_witness :
    insert_image_service (fun _ => "h") (fun _ => none) (fun _ => true)
      (fun _ => { status_code := some 200,
                  output := some (.pydict [("embedding", .pylist [])]) })
      { file_name := "a.jpg", file_data := [1], file_type := "image/jpeg",
        file_class := "c" } =
      (.ok (insert_data_raw (fun _ => "h")
        { file_name := "a.jpg", file_data := [1], file_type := "image/jpeg",
          file_class := "c" } (some [])),
       [.dashscopeEmbed (image_to_data_url [1] (some "image/jpeg")),
        .milvusInsert]) :=
  (unraised_valueerror_passes_empty_vector (fun _ => "h") (fun _ => none)
    (fun _ => true)
    (fun _ => { status_code := some 200,
                output := some (.pydict [("embedding", .pylist [])]) })
    { file_name := "a.jpg", file_data := [1], file_type := "image/jpeg",
      file_class := "c" } (some []) rfl (by decide) (Or.inr rfl)).2.1

/-- C3 counterexample: in the `search_image` endpoint the temporary
directory is created BEFORE the `try` block (`backend/app/api/search.py`
lines 36-38), so an `OSError` raised there propagates out of the handler
instead of being mapped to a failure envelope — refuting "for every
request during which any exception is raised, the endpoint catches it
... never propagating the exception to the caller". -/
theorem search_endpoint_propagates_mkdir_error :
    search_image_endpoint (.error (.osErr "Permission denied")) (.ok [])
      (.ok ()) (fun _ => .ok []) (fun _ => "") =
      .error (.osErr "Permission denied") := rfl

/-- C3 (amended): the envelope type has exactly the fields `code`, `msg`,
`data`; for `search_image`, an exception in the pre-`try` directory setup
propagates unchanged, and once the `try` block is entered the endpoint
always returns an envelope — `code = 200` with the rendered result on
success, and `code = 201` with `msg = "失败"` and the formatted traceback
in `data` for any exception raised inside the block. -/
theorem search_endpoint_envelope
    (mkdirRes : Except PyErr Unit) (readRes : Except PyErr (List Nat))
    (writeRes : Except PyErr Unit)
    (svc : List Nat → Except PyErr (List SearchHit))
    (pyFormat : List SearchHit → String) :
    (∀ e, mkdirRes = .error e →
      search_image_endpoint mkdirRes readRes writeRes svc pyFormat =
        .error e) ∧
    (mkdirRes = .ok () →
      ∃ env : ApiResponse,
        search_image_endpoint mkdirRes readRes writeRes svc pyFormat =
          .ok env ∧
        ((∃ hits, (do
            let d ← readRes
            let _ ← writeRes
            svc d : Except PyErr (List SearchHit)) = .ok hits ∧
          env = { code := 200, msg := "成功",
                  data := some (pyFormat hits) }) ∨
         (∃ e, (do
            let d ← readRes
            let _ ← writeRes
            svc d : Except PyErr (List SearchHit)) = .error e ∧
          env = { code := 201, msg := "失败",
                  data := some (traceback_format_exc e) }))) := by
  constructor
  · intro e he
    simp [search_image_endpoint, he]
  · intro hmk
    subst hmk
    rcases hbody : (do
        let d ← readRes
        let _ ← writeRes
        svc d : Except PyErr (List SearchHit)) with e | hits
    · exact ⟨_, by simp [search_image_endpoint, MessageCodeSUCCESS,
        MessageStatusSUCCESS, MessageCodeFAIL, MessageStatusFAIL, hbody],
        Or.inr ⟨e, rfl, rfl⟩⟩
    · exact ⟨_, by simp [search_image_endpoint, MessageCodeSUCCESS,
        MessageStatusSUCCESS, MessageCodeFAIL, MessageStatusFAIL, hbody],
        Or.inl ⟨hits, rfl, rfl⟩⟩

/-- C3 witness: a concrete failing service call inside the `try` yields
the `201` envelope with the traceback in `data`. -/
theorem search_endpoint_envelope_witness :
    search_image_endpoint (.ok ()) (.ok [7]) (.ok ())
      (fun _ => .error (.valueErr "boom")) (fun _ => "[]") =
      .ok { code := 201, msg := "失败",
            data := some (traceback_format_exc (.valueErr "boom")) } := by
  obtain ⟨env, h1, h2⟩ := (search_endpoint_envelope (.ok ()) (.ok [7])
    (.ok ()) (fun _ => .error (.valueErr "boom")) (fun _ => "[]")).2 rfl
  rcases h2 with ⟨hits, hh, rfl⟩ | ⟨e, he, rfl⟩
  · exact absurd hh (by simp [bind, Except.bind])
  · have he' : e = .valueErr "boom" := by
      simp [bind, Except.bind] at he
      exact he.symm
    rw [h1, he']

/-- C2: evaluation of the insert pipeline at a concrete upload carrying a
description and a MinIO URL.  The row handed to the vector-database insert
(`backend/app/service/imginsert.py` lines 41-47) consists of exactly
`class_id`, `class_name`, `file_path`, an empty `file_content`, and
`vector`; the description and the object-storage URL passed to the
`OneImageUploadDTO` constructor are silently dropped (they are not fields
of the pydantic model) and appear nowhere in the row. -/
theorem insert_row_drops_description_and_url :
    insert_image_service (fun _ => "9e107d9d372bb6826bd81d3542a419d6")
      (fun _ => none) (fun _ => true)
      (fun _ => { status_code := some 200,
                  output := some (.pydict [("embedding",
                    .pylist [.pyfloat 1])]) })
      (buildUploadDTO [255, 216, 255] "photo.jpg" "image/jpeg" "cups"
        (some "a red cup") "http://minio:9000/images/x.jpg") =
      (.ok [("class_id", .str "9e107d9d372bb6826bd81d3542a419d6"),
            ("class_name", .str "cups"),
            ("file_path", .str "photo.jpg"),
            ("file_content", .str ""),
            ("vector", .vec [1])],
       [.dashscopeEmbed (image_to_data_url [255, 216, 255]
          (some "image/jpeg")), .milvusInsert]) ∧
    (∀ kv ∈ [(("class_id" : String),
              MilvusVal.str "9e107d9d372bb6826bd81d3542a419d6"),
             ("class_name", MilvusVal.str "cups"),
             ("file_path", MilvusVal.str "photo.jpg"),
             ("file_content", MilvusVal.str ""),
             ("vector", MilvusVal.vec [1])],
      kv.2 ≠ MilvusVal.str "a red cup" ∧
      kv.2 ≠ MilvusVal.str "http://minio:9000/images/x.jpg" ∧
      kv.1 ≠ "file_description" ∧ kv.1 ≠ "file_url") := by
  refine ⟨?_, by decide⟩
  rfl

/-- C8: a file whose extension is not among `.jpg/.jpeg/.png/.bmp` is
skipped by both `api_upload_image` and `api_search_image` with a
`filestatus = "fail"` entry and NO external call (no embedding request, no
vector insert, no vector search), and a request whose files all process
without an exception still gets the success envelope. -/
theorem disallowed_extension_skipped
    (o : UploadOracles) (so : SearchOracles) (f : UploadFileIn)
    (g : SearchFileIn) (files : List UploadFileIn)
    (gfiles : List SearchFileIn)
    (results : List (List (String × PyEntryVal) × List ExtCall))
    (gresults : List (List (String × PyEntryVal) × List ExtCall))
    (hf : pyExt f.filename ∉ ALLOWED_EXTENSIONS)
    (hg : pyExt g.filename ∉ ALLOWED_EXTENSIONS) :
    (o.mkdir f.category = .ok () →
      processUploadFile o f =
        .ok ([("filename", .s f.filename), ("filestatus", .s "fail")], [])) ∧
    processSearchFile so g =
      .ok ([("filename", .s g.filename), ("filestatus", .s "fail"),
            ("fileresult", .hits [])], []) ∧
    (o.getMinio = .ok () →
      processAll (fun x => processUploadFile o x) files = .ok results →
      (api_upload_image o files).code = 200 ∧
      (api_upload_image o files).msg = "成功") ∧
    (so.mkdirPredict = .ok () →
      processAll (fun x => processSearchFile so x) gfiles = .ok gresults →
      ∃ env : ApiResponse, api_search_image so gfiles = .ok env ∧
        env.code = 200) := by
  refine ⟨fun hmk => ?_, ?_, fun hgm hall => ?_, fun hp hall => ?_⟩
  · simp [processUploadFile, hmk, hf]
  · simp [processSearchFile, hg, pure, Except.pure]
  · constructor <;>
      simp [api_upload_image, hgm, hall, bind, Except.bind,
        MessageCodeSUCCESS, MessageStatusSUCCESS]
  · refine ⟨⟨MessageCodeSUCCESS, MessageStatusSUCCESS,
        some (so.fmtEntries (gresults.map Prod.fst))⟩, ?_, rfl⟩
    simp [api_search_image, hp, hall, bind, Except.bind]

/-- C8 witness: a single `.txt` file is skipped with a fail entry and an
empty call log on both endpoints, and empty requests succeed with
code 200. -/
theorem disallowed_extension_skipped_witness :
    processUploadFile
      ⟨.ok (), fun _ => .ok (), fun _ => .ok (), fun _ _ => .ok "http://u",
       fun _ => .ok (), fun _ => .ok [], fun _ => "m", "u", "u8",
       "2026-10-12", fun _ => "s"⟩
      ⟨"notes.txt", "text/plain", "cat", "d", []⟩ =
      .ok ([("filename", .s "notes.txt"), ("filestatus", .s "fail")], []) ∧
    processSearchFile
      ⟨.ok (), fun _ => .ok (), fun _ => .ok (), fun _ => .ok [],
       fun _ => "s"⟩
      ⟨"notes.txt", "text/plain", []⟩ =
      .ok ([("filename", .s "notes.txt"), ("filestatus", .s "fail"),
            ("fileresult", .hits [])], []) := by
  have h := disallowed_extension_skipped
    ⟨.ok (), fun _ => .ok (), fun _ => .ok (), fun _ _ => .ok "http://u",
     fun _ => .ok (), fun _ => .ok [], fun _ => "m", "u", "u8",
     "2026-10-12", fun _ => "s"⟩
    ⟨.ok (), fun _ => .ok (), fun _ => .ok (), fun _ => .ok [],
     fun _ => "s"⟩
    ⟨"notes.txt", "text/plain", "cat", "d", []⟩
    ⟨"notes.txt", "text/plain", []⟩ [] [] [] [] (by decide) (by decide)
  exact ⟨h.1 rfl, h.2.1⟩

/-- C10: a MinIO upload failure alone neither fails the request nor skips
the image: the exception is caught, `file_url` becomes the empty string,
and the insert service (vectorization plus vector-database insert) still
runs for that file; the request-level envelope is still the success one
when every file processes without an exception. -/
theorem minio_failure_caught_insert_proceeds
    (o : UploadOracles) (f : UploadFileIn) (e : PyErr)
    (row : List (String × MilvusVal)) (files : List UploadFileIn)
    (results : List (List (String × PyEntryVal) × List ExtCall))
    (hext : pyExt f.filename ∈ ALLOWED_EXTENSIONS)
    (hmk : o.mkdir f.category = .ok ())
    (hrd : o.readOk f.filename = .ok ())
    (hminio : o.minio (uploadObjectName o f) f.data = .error e)
    (htmp : o.tmpWrite f.filename = .ok ())
    (hins : o.insertSvc (buildUploadDTO f.data f.filename f.content_type
      f.category (some f.description) "") = .ok row) :
    processUploadFile o f =
      .ok ([("filename", .s f.filename), ("file_url", .s ""),
            ("vectorize_data", .row row)],
           [.minioPut (uploadObjectName o f), .milvusInsert]) ∧
    (o.getMinio = .ok () →
      processAll (fun x => processUploadFile o x) files = .ok results →
      (api_upload_image o files).code = 200) := by
  constructor
  · simp [processUploadFile, hmk, hext, hrd, hminio, htmp, hins, bind,
      Except.bind, pure, Except.pure]
  · intro hgm hall
    simp [api_upload_image, hgm, hall, bind, Except.bind, MessageCodeSUCCESS]

/-- C10 witness: a concrete request whose MinIO upload fails; the file is
still inserted with an empty `file_url` and the envelope code is 200. -/
theorem minio_failure_caught_insert_proceeds_witness :
    processUploadFile
      ⟨.ok (), fun _ => .ok (), fun _ => .ok (),
       fun _ _ => .error (.s3Err "connection refused"), fun _ => .ok (),
       fun _ => .ok [("file_content", .str "")], fun _ => "m", "u", "u8",
       "2026-10-12", fun _ => "s"⟩
      ⟨"a.jpg", "image/jpeg", "cat", "d", [1]⟩ =
      .ok ([("filename", .s "a.jpg"), ("file_url", .s ""),
            ("vectorize_data", .row [("file_content", .str "")])],
           [.minioPut (uploadObjectName
              ⟨.ok (), fun _ => .ok (), fun _ => .ok (),
               fun _ _ => .error (.s3Err "connection refused"),
               fun _ => .ok (), fun _ => .ok [("file_content", .str "")],
               fun _ => "m", "u", "u8", "2026-10-12", fun _ => "s"⟩
              ⟨"a.jpg", "image/jpeg", "cat", "d", [1]⟩), .milvusInsert]) :=
  (minio_failure_caught_insert_proceeds
    ⟨.ok (), fun _ => .ok (), fun _ => .ok (),
     fun _ _ => .error (.s3Err "connection refused"), fun _ => .ok (),
     fun _ => .ok [("file_content", .str "")], fun _ => "m", "u", "u8",
     "2026-10-12", fun _ => "s"⟩
    ⟨"a.jpg", "image/jpeg", "cat", "d", [1]⟩ (.s3Err "connection refused")
    [("file_content", .str "")] [] [] (by decide) rfl rfl rfl rfl rfl).1

/-- The first embedding shape named by the specification:
`output.embeddings[0].embedding` with a non-empty `embeddings` list. -/
def claimShape1 (out : PyVal) : Prop :=
  ∃ kvs first rest fkvs e, out = .pydict kvs ∧
    dictLookup kvs "embeddings" = some (.pylist (first :: rest)) ∧
    first = .pydict fkvs ∧ dictLookup fkvs "embedding" = some e

/-- The second embedding shape named by the specification:
`output.embedding` as a list. -/
def claimShape2 (out : PyVal) : Prop :=
  ∃ kvs xs, out = .pydict kvs ∧
    dictLookup kvs "embedding" = some (.pylist xs)

/-- A successful extraction implies one of the two specified shapes. -/
theorem extractEmbedding_shapes (out : PyVal) (e : PyVal)
    (h : extractEmbedding out = some e) :
    claimShape1 out ∨ claimShape2 out := by
  unfold extractEmbedding at h
  split at h
  · rename_i kvs
    split at h
    · rename_i first rest h1
      split at h
      · rename_i fkvs
        exact Or.inl ⟨kvs, _, rest, fkvs, e, rfl, h1, rfl, h⟩
      · exact absurd h (by simp)
    · rename_i h1
      split at h
      · rename_i xs h2
        exact Or.inr ⟨kvs, xs, rfl, h2⟩
      · exact absurd h (by simp)
  · exact absurd h (by simp)

/-- C4 counterexample: a `200 OK` response whose output is the dict
`{"embedding": [None]}` — the second specified shape is present
(`output.embedding` is a list), yet `get_embedding_from_response` returns
`None`, because `float(None)` raises inside the normalization block and the
`except` returns `None`; this refutes the claim's "otherwise it returns
the embedding normalized to a plain Python list of floats". -/
theorem get_embedding_counterexample :
    get_embedding_from_response (fun _ => none)
      { status_code := some 200,
        output := some (.pydict [("embedding", .pylist [.pynone])]) } =
      none ∧
    dictLookup [("embedding", .pylist [.pynone])] "embedding" =
      some (.pylist [.pynone]) ∧
    pyTruthy (.pydict [("embedding", .pylist [.pynone])]) = true :=
  ⟨rfl, rfl, rfl⟩

/-- C4 (amended): `get_embedding_from_response` returns `None` whenever
the status code is not `200`, the output is missing or falsy, or no
embedding is present in either recognized shape; in addition it returns
`None` when the `embeddings`-list branch is selected but its first element
carries no embedding, or when some element of the selected embedding fails
`float` conversion; whenever it returns a list, the response had status
`200`, a truthy output, a successfully extracted embedding, and the list
is its elementwise `float` normalization. -/
theorem get_embedding_characterization (strFloat : String → Option ℚ)
    (resp : DashscopeResp) :
    (resp.status_code ≠ some 200 →
      get_embedding_from_response strFloat resp = none) ∧
    (resp.output = none →
      get_embedding_from_response strFloat resp = none) ∧
    (∀ out, resp.output = some out → pyTruthy out = false →
      get_embedding_from_response strFloat resp = none) ∧
    (∀ out, resp.output = some out → ¬ claimShape1 out → ¬ claimShape2 out →
      get_embedding_from_response strFloat resp = none) ∧
    (∀ l, get_embedding_from_response strFloat resp = some l →
      resp.status_code = some 200 ∧
      ∃ out e, resp.output = some out ∧ pyTruthy out = true ∧
        extractEmbedding out = some e ∧
        convertEmbedding strFloat e = some l) := by
  refine ⟨fun hs => ?_, fun ho => ?_, fun out ho ht => ?_,
    fun out ho h1 h2 => ?_, fun l h => ?_⟩
  · simp [get_embedding_from_response, hs]
  · simp [get_embedding_from_response, ho]
  · simp [get_embedding_from_response, ho, ht]
  · have hex : extractEmbedding out = none := by
      rcases hx : extractEmbedding out with _ | e
      · rfl
      · rcases extractEmbedding_shapes out e hx with hsh | hsh
        · exact absurd hsh h1
        · exact absurd hsh h2
    simp [get_embedding_from_response, ho, hex]
  · unfold get_embedding_from_response at h
    split at h
    · exact absurd h (by simp)
    · rename_i hs
      push_neg at hs
      split at h
      · exact absurd h (by simp)
      · rename_i o ho2
        split at h
        · exact absurd h (by simp)
        · rename_i ht
          split at h
          · exact absurd h (by simp)
          · rename_i e hx
            exact ⟨hs, o, e, ho2, by
                revert ht
                cases pyTruthy o <;> simp, hx, h⟩

/-- C4 witness: a response with a non-200 status code yields `None`. -/
theorem get_embedding_characterization_witness :
    get_embedding_from_response (fun _ => none)
      { status_code := some 404 } = none :=
  (get_embedding_characterization (fun _ => none)
    { status_code := some 404 }).1 (by decide)

/-- The extension computed by `os.path.splitext` is empty or starts with a
dot. -/
theorem splitextList_snd_shape (p : List Char) :
    (splitextList p).2 = [] ∨ ∃ t, (splitextList p).2 = '.' :: t := by
  simp only [splitextList]
  split
  · exact Or.inl rfl
  · split
    · exact Or.inr ⟨_, rfl⟩
    · exact Or.inl rfl

/-- The chosen extension is never empty. -/
theorem fileExtChosen_ne_nil (f : String) : fileExtChosen f ≠ [] := by
  simp only [fileExtChosen]
  split
  · decide
  · assumption

/-- The chosen extension starts with a dot. -/
theorem fileExtChosen_head (f : String) :
    (fileExtChosen f).head? = some '.' := by
  unfold fileExtChosen
  rcases splitextList_snd_shape f.toList with h | ⟨t, h⟩ <;> rw [h] <;> simp
  rfl

/-- ASCII lowering either fixes the character or yields an ASCII one. -/
theorem pyLowerAscii_cases (c : Char) :
    pyLowerAscii c = c ∨ (pyLowerAscii c).toNat < 128 := by
  unfold pyLowerAscii
  split
  case _ => exact Or.inr (by decide)
  case _ => exact Or.inr (by decide)
  case _ => exact Or.inr (by decide)
  case _ => exact Or.inr (by decide)
  case _ => exact Or.inr (by decide)
  case _ => exact Or.inr (by decide)
  case _ => exact Or.inr (by decide)
  case _ => exact Or.inr (by decide)
  case _ => exact Or.inr (by decide)
  case _ => exact Or.inr (by decide)
  case _ => exact Or.inr (by decide)
  case _ => exact Or.inr (by decide)
  case _ => exact Or.inr (by decide)
  case _ => exact Or.inr (by decide)
  case _ => exact Or.inr (by decide)
  case _ => exact Or.inr (by decide)
  case _ => exact Or.inr (by decide)
  case _ => exact Or.inr (by decide)
  case _ => exact Or.inr (by decide)
  case _ => exact Or.inr (by decide)
  case _ => exact Or.inr (by decide)
  case _ => exact Or.inr (by decide)
  case _ => exact Or.inr (by decide)
  case _ => exact Or.inr (by decide)
  case _ => exact Or.inr (by decide)
  case _ => exact Or.inr (by decide)
  case _ => exact Or.inl rfl

/-- Characters of the POSIX basename come from the path. -/
theorem mem_basenamePosix {c : Char} {l : List Char}
    (h : c ∈ basenamePosix l) : c ∈ l := by
  unfold basenamePosix at h
  rw [List.mem_reverse] at h
  exact List.mem_reverse.mp (List.takeWhile_subset _ h)

/-- Characters of the `splitext` root come from the path. -/
theorem mem_splitextList_fst {c : Char} {p : List Char}
    (h : c ∈ (splitextList p).1) : c ∈ p := by
  simp only [splitextList] at h
  split at h
  · exact h
  · split at h
    · exact List.take_subset _ _ h
    · exact h

/-- Characters of the `splitext` extension are the dot or come from the
path. -/
theorem mem_splitextList_snd {c : Char} {p : List Char}
    (h : c ∈ (splitextList p).2) : c = '.' ∨ c ∈ p := by
  simp only [splitextList] at h
  split at h
  · simp at h
  · split at h
    · rcases List.mem_cons.mp h with h | h
      · exact Or.inl h
      · rw [List.mem_reverse] at h
        exact Or.inr (mem_basenamePosix
          (List.mem_reverse.mp (List.takeWhile_subset _ h)))
    · simp at h

/-- A non-empty character list makes a non-empty string. -/
theorem stringMk_ne_empty (l : List Char) (h : l ≠ []) : String.mk l ≠ "" :=
  fun he => h (congrArg String.toList he)

/-- Characters of the chosen extension are ASCII whenever the filename is
ASCII. -/
theorem mem_fileExtChosen_ascii {c : Char} {f : String}
    (hascii : ∀ x ∈ f.toList, x.toNat < 128) (h : c ∈ fileExtChosen f) :
    c.toNat < 128 := by
  simp only [fileExtChosen] at h
  split at h
  · revert h
    revert c
    decide
  · rcases List.mem_map.mp h with ⟨x, hx, rfl⟩
    rcases pyLowerAscii_cases x with heq | hlt
    · rw [heq]
      rcases mem_splitextList_snd hx with rfl | hxp
      · decide
      · exact hascii x hxp
    · exact hlt

/-- C7 counterexample: `sanitize_filename` keeps a non-ASCII extension
untouched — on input `"a.图"` the result is `"a.图"` itself, which is not
ASCII-only, refuting "sanitize_filename returns a non-empty ASCII-only
filename" for every input. -/
theorem sanitize_filename_counterexample :
    sanitize_filename "0123456789abcdef0123456789abcdef" "a.图" = "a.图" ∧
    ((sanitize_filename "0123456789abcdef0123456789abcdef" "a.图").toList.all
      (fun c => c.toNat < 128)) = false := by
  constructor
  · rfl
  · rfl

/-- C7 (amended): `sanitize_folder_name` returns a non-empty string of
ASCII letters, digits, underscores and hyphens (non-ASCII input maps to
`"folder_"` plus 12 hex characters of the md5 digest, empty input maps to
`"uploads"`); `sanitize_filename` returns a non-empty filename that ends
in a dot-led extension (`".jpg"` when none is present), whose basename
part is sanitized to `[A-Za-z0-9_.-]`, and which is ASCII-only whenever
the input filename (and hence its preserved extension) is ASCII — but the
extension is kept as-is, so a non-ASCII extension passes through. -/
theorem sanitizers_characterization
    (md5hex : String → String) (uuidHex folder filename : String)
    (hmd : ∀ c ∈ (md5hex folder).toList, c ∈ "0123456789abcdef".toList)
    (hlen : (md5hex folder).toList.length = 32)
    (huu : ∀ c ∈ uuidHex.toList, c ∈ "0123456789abcdef".toList) :
    (sanitize_folder_name md5hex folder ≠ "" ∧
     ∀ c ∈ (sanitize_folder_name md5hex folder).toList,
       folderAllowedChar c = true) ∧
    (contains_non_ascii folder = true →
      sanitize_folder_name md5hex folder =
        String.mk ("folder_".toList ++ (md5hex folder).toList.take 12) ∧
      ((md5hex folder).toList.take 12).length = 12) ∧
    (folder = "" → sanitize_folder_name md5hex folder = "uploads") ∧
    (sanitize_filename uuidHex filename ≠ "" ∧
     ∃ base, (sanitize_filename uuidHex filename).toList =
       base ++ fileExtChosen filename) ∧
    (fileExtChosen filename).head? = some '.' ∧
    ((∀ c ∈ filename.toList, c.toNat < 128) →
      ∀ c ∈ (sanitize_filename uuidHex filename).toList, c.toNat < 128) := by
  have hexAllowed : ∀ c ∈ "0123456789abcdef".toList,
      folderAllowedChar c = true := by decide
  have hexAscii : ∀ c ∈ "0123456789abcdef".toList, c.toNat < 128 := by
    decide
  refine ⟨⟨?_, ?_⟩, fun hna => ⟨?_, ?_⟩, fun he => ?_, ⟨?_, ?_⟩,
    fileExtChosen_head filename, fun hascii c hc => ?_⟩
  · simp only [sanitize_folder_name]
    split
    · decide
    · split
      · exact stringMk_ne_empty _ (by simp)
      · split
        · decide
        · assumption
  · intro c hc
    simp only [sanitize_folder_name] at hc
    split at hc
    · exact (by decide :
        ∀ x ∈ "uploads".toList, folderAllowedChar x = true) c hc
    · split at hc
      · rcases List.mem_append.mp hc with h | h
        · exact (by decide :
            ∀ x ∈ "folder_".toList, folderAllowedChar x = true) c h
        · exact hexAllowed c (hmd c (List.take_subset _ _ h))
      · split at hc
        · exact (by decide :
            ∀ x ∈ "uploads".toList, folderAllowedChar x = true) c hc
        · rcases List.mem_map.mp hc with ⟨x, hx, rfl⟩
          by_cases hax : folderAllowedChar x = true
          · simp [hax]
          · simp [hax]
            decide
  · simp [sanitize_folder_name, hna]
    intro h
    rw [h] at hna
    exact absurd hna (by decide)
  · have h32 : (md5hex folder).length = 32 := hlen
    rw [List.length_take]
    omega
  · simp [sanitize_folder_name, he]
  · simp only [sanitize_filename]
    split
    · exact stringMk_ne_empty _
        (List.append_ne_nil_of_right_ne_nil _ (by decide))
    · split
      · exact stringMk_ne_empty _
          (List.append_ne_nil_of_right_ne_nil _ (fileExtChosen_ne_nil _))
      · split
        · exact stringMk_ne_empty _
            (List.append_ne_nil_of_right_ne_nil _ (fileExtChosen_ne_nil _))
        · exact stringMk_ne_empty _
            (List.append_ne_nil_of_right_ne_nil _ (fileExtChosen_ne_nil _))
  · simp only [sanitize_filename]
    split
    · rename_i hf
      subst hf
      exact ⟨_, rfl⟩
    · split
      · exact ⟨_, rfl⟩
      · split
        · exact ⟨_, rfl⟩
        · exact ⟨_, rfl⟩
  · simp only [sanitize_filename] at hc
    split at hc
    · rcases List.mem_append.mp hc with h | h
      · exact hexAscii c (huu c (List.take_subset _ _ h))
      · exact (by decide : ∀ x ∈ ".jpg".toList, x.toNat < 128) c h
    · split at hc
      · rcases List.mem_append.mp hc with h | h
        · exact hexAscii c (huu c (List.take_subset _ _ h))
        · exact mem_fileExtChosen_ascii hascii h
      · split at hc
        · rcases List.mem_append.mp hc with h | h
          · exact hexAscii c (huu c (List.take_subset _ _ h))
          · exact mem_fileExtChosen_ascii hascii h
        · rcases List.mem_append.mp hc with h | h
          · rcases List.mem_map.mp h with ⟨x, hx, rfl⟩
            by_cases hax : fileAllowedChar x = true
            · simp only [hax, if_true]
              exact hascii x (mem_splitextList_fst (mem_basenamePosix hx))
            · simp [hax]
          · exact mem_fileExtChosen_ascii hascii h

/-- C7 witness: concrete md5/uuid oracles and a Chinese folder name; the
sanitized folder name is non-empty and uses only allowed characters. -/
theorem sanitizers_characterization_witness :
    sanitize_folder_name (fun _ => "0123456789abcdef0123456789abcdef")
      "目录" ≠ "" :=
  (sanitizers_characterization (fun _ => "0123456789abcdef0123456789abcdef")
    "0123456789abcdef0123456789abcdef" "目录" "My Photo.JPG"
    (by decide) (by decide) (by decide)).1.1

/-- The alphabet inverts the encoding table on 6-bit values. -/
theorem b64Index_b64Char : ∀ n, n < 64 → b64Index (b64Char n) = some n := by
  decide

/-- Encoded 6-bit values are never the padding character. -/
theorem b64Char_ne_pad : ∀ n, n < 64 → b64Char n ≠ '=' := by
  decide

/-- Every character produced by the encoder is an alphabet character. -/
theorem b64Char_mem (n : Nat) : b64Char n ∈ b64Alphabet := by
  unfold b64Char
  rcases Nat.lt_or_ge n b64Alphabet.length with h | h
  · rw [List.getD_eq_getElem _ _ h]
    exact List.getElem_mem h
  · rw [List.getD_eq_default _ _ h]
    decide

/-- Characters of the encoder output: alphabet or padding. -/
theorem mem_b64encodeChunks {c : Char} (bs : List Nat)
    (hc : c ∈ b64encodeChunks bs) : c ∈ b64Alphabet ∨ c = '=' := by
  induction bs using b64encodeChunks.induct with
  | case1 => simp [b64encodeChunks] at hc
  | case2 a =>
    simp only [b64encodeChunks, List.mem_cons, List.not_mem_nil,
      or_false] at hc
    rcases hc with rfl | rfl | rfl | rfl
    · exact Or.inl (b64Char_mem _)
    · exact Or.inl (b64Char_mem _)
    · exact Or.inr rfl
    · exact Or.inr rfl
  | case3 a b =>
    simp only [b64encodeChunks, List.mem_cons, List.not_mem_nil,
      or_false] at hc
    rcases hc with rfl | rfl | rfl | rfl
    · exact Or.inl (b64Char_mem _)
    · exact Or.inl (b64Char_mem _)
    · exact Or.inl (b64Char_mem _)
    · exact Or.inr rfl
  | case4 a b c' rest ih =>
    simp only [b64encodeChunks, List.mem_cons] at hc
    rcases hc with rfl | rfl | rfl | rfl | hc
    · exact Or.inl (b64Char_mem _)
    · exact Or.inl (b64Char_mem _)
    · exact Or.inl (b64Char_mem _)
    · exact Or.inl (b64Char_mem _)
    · exact ih hc

/-- The encoder output survives `b64decode`'s invalid-character filter
unchanged. -/
theorem b64encodeChunks_filter (bs : List Nat) :
    (b64encodeChunks bs).filter
      (fun c => b64Alphabet.contains c || c == '=') = b64encodeChunks bs := by
  rw [List.filter_eq_self]
  intro c hc
  rcases mem_b64encodeChunks bs hc with h | rfl
  · simp [h]
  · simp

/-- Decoding inverts encoding on byte lists. -/
theorem b64decodeChunks_encodeChunks (bs : List Nat)
    (h : ∀ b ∈ bs, b < 256) :
    b64decodeChunks (b64encodeChunks bs) = some bs := by
  induction bs using b64encodeChunks.induct with
  | case1 => rfl
  | case2 a =>
    have ha : a < 256 := h a (by simp)
    simp only [b64encodeChunks, b64decodeChunks,
      b64Index_b64Char (a / 4 % 64) (by omega),
      b64Index_b64Char (a % 4 * 16) (by omega),
      bind, Option.bind]
    simp only [if_pos rfl, and_self, reduceIte, Option.some.injEq,
      List.cons.injEq, and_true]
    omega
  | case3 a b =>
    have ha : a < 256 := h a (by simp)
    have hb : b < 256 := h b (by simp)
    simp only [b64encodeChunks, b64decodeChunks,
      b64Index_b64Char (a / 4 % 64) (by omega),
      b64Index_b64Char (a % 4 * 16 + b / 16 % 16) (by omega),
      b64Index_b64Char (b % 16 * 4) (by omega),
      bind, Option.bind]
    rw [if_neg (b64Char_ne_pad (b % 16 * 4) (by omega))]
    simp only [if_pos rfl, reduceIte, Option.some.injEq, List.cons.injEq,
      and_true]
    constructor <;> omega
  | case4 a b c rest ih =>
    have ha : a < 256 := h a (by simp)
    have hb : b < 256 := h b (by simp)
    have hc : c < 256 := h c (by simp)
    have htail : b64decodeChunks (b64encodeChunks rest) = some rest :=
      ih (fun x hx => h x (by simp [hx]))
    simp only [b64encodeChunks, b64decodeChunks,
      b64Index_b64Char (a / 4 % 64) (by omega),
      b64Index_b64Char (a % 4 * 16 + b / 16 % 16) (by omega),
      b64Index_b64Char (b % 16 * 4 + c / 64 % 4) (by omega),
      b64Index_b64Char (c % 64) (by omega),
      bind, Option.bind]
    rw [if_neg (b64Char_ne_pad (b % 16 * 4 + c / 64 % 4) (by omega)),
      if_neg (b64Char_ne_pad (c % 64) (by omega)), htail]
    simp only [Option.bind, Option.some.injEq, List.cons.injEq, and_true]
    refine ⟨by omega, by omega, by omega⟩

/-- `pyB64decode` inverts `b64encode` on byte lists. -/
theorem pyB64decode_b64encode (bs : List Nat) (h : ∀ b ∈ bs, b < 256) :
    pyB64decode (b64encodeChunks bs) = some bs := by
  unfold pyB64decode
  rw [b64encodeChunks_filter]
  exact b64decodeChunks_encodeChunks bs h

/-- `startswith` characterization. -/
theorem startsWithChars_iff (s pre : List Char) :
    startsWithChars s pre = true ↔ ∃ t, s = pre ++ t := by
  induction pre generalizing s with
  | nil => simp [startsWithChars]
  | cons p ps ih =>
    cases s with
    | nil =>
      simp [startsWithChars]
    | cons c cs =>
      simp only [startsWithChars, Bool.and_eq_true, beq_iff_eq, ih,
        List.cons_append, List.cons.injEq]
      constructor
      · rintro ⟨rfl, t, rfl⟩
        exact ⟨t, rfl, rfl⟩
      · rintro ⟨t, rfl, rfl⟩
        exact ⟨rfl, t, rfl⟩

/-- Splitting at the separator itself. -/
theorem splitFirstAt_cons_self (sep : Char) (r : List Char) :
    splitFirstAt sep (sep :: r) = some ([], r) := by
  simp [splitFirstAt]

/-- Splitting skips a separator-free left part. -/
theorem splitFirstAt_append (sep : Char) (l r : List Char)
    (hl : sep ∉ l) :
    splitFirstAt sep (l ++ r) =
      (splitFirstAt sep r).map (fun p => (l ++ p.1, p.2)) := by
  induction l with
  | nil =>
    rw [List.nil_append]
    cases splitFirstAt sep r <;> simp
  | cons c cs ih =>
    have hc : ¬ c = sep := by
      intro hcs
      exact hl (by simp [hcs])
    have hcs : sep ∉ cs := fun hx => hl (by simp [hx])
    rw [List.cons_append,
      show splitFirstAt sep (c :: (cs ++ r)) =
        (splitFirstAt sep (cs ++ r)).map (fun p => (c :: p.1, p.2)) from by
          simp [splitFirstAt, hc],
      ih hcs]
    cases splitFirstAt sep r <;> simp

/-- `takeWhile` passes over elements satisfying the predicate. -/
theorem takeWhile_append_all (p : Char → Bool) (l r : List Char)
    (hl : ∀ x ∈ l, p x = true) :
    (l ++ r).takeWhile p = l ++ r.takeWhile p := by
  induction l with
  | nil => simp
  | cons c cs ih =>
    have hc : p c = true := hl c (by simp)
    simp only [List.cons_append, List.takeWhile_cons, hc, reduceIte,
      List.cons.injEq, true_and]
    exact ih (fun x hx => hl x (by simp [hx]))

/-- `takeWhile` keeps a fully satisfying list. -/
theorem takeWhile_eq_self (p : Char → Bool) (l : List Char)
    (hl : ∀ x ∈ l, p x = true) : l.takeWhile p = l := by
  induction l with
  | nil => rfl
  | cons c cs ih =>
    have hc : p c = true := hl c (by simp)
    simp only [List.takeWhile_cons, hc, reduceIte, List.cons.injEq, true_and]
    exact ih (fun x hx => hl x (by simp [hx]))

/-- The chosen MIME type always extends `"image/"`. -/
theorem mimeOf_decomp (ct : Option String) :
    ∃ t, (mimeOf ct).toList = "image/".toList ++ t := by
  rcases ct with _ | s
  · exact ⟨"jpeg".toList, rfl⟩
  · simp only [mimeOf]
    split
    · rename_i hcond
      exact (startsWithChars_iff s.toList "image/".toList).mp hcond.2
    · exact ⟨"jpeg".toList, rfl⟩

/-- C6 (amended): `image_to_data_url` returns exactly
`"data:" + mime + ";base64," + base64(contents)` with `mime` as the claim
states; feeding that string to the data-URL branch of
`download_image_from_url` recovers the original bytes and MIME type
provided the chosen MIME type contains no `':'`, `';'` or `','` (a
`content_type` containing such characters corrupts the parse, see the
counterexample). -/
theorem data_url_roundtrip (contents : List Nat) (ct : Option String)
    (hb : ∀ b ∈ contents, b < 256)
    (hm : ∀ c ∈ (mimeOf ct).toList, c ≠ ':' ∧ c ≠ ';' ∧ c ≠ ',') :
    image_to_data_url contents ct =
      "data:" ++ mimeOf ct ++ ";base64," ++ b64encode contents ∧
    download_image_from_url_data (image_to_data_url contents ct) =
      some (contents, mimeOf ct) := by
  constructor
  · rfl
  · obtain ⟨t, ht⟩ := mimeOf_decomp ct
    have hnc : ∀ x ∈ (mimeOf ct).toList, x ≠ ',' := fun x hx => (hm x hx).2.2
    have hns : ∀ x ∈ (mimeOf ct).toList, x ≠ ';' := fun x hx => (hm x hx).2.1
    have hncol : ∀ x ∈ (mimeOf ct).toList, x ≠ ':' := fun x hx => (hm x hx).1
    have h0 : download_image_from_url_data (image_to_data_url contents ct) =
        downloadDataChars (dataUrlChars contents ct) := rfl
    rw [h0]
    have hpre : startsWithChars (dataUrlChars contents ct)
        ("data:image/".toList) = true := by
      rw [startsWithChars_iff]
      refine ⟨t ++ (";base64,".toList ++ b64encodeChunks contents), ?_⟩
      rw [show "data:image/".toList = "data:".toList ++ "image/".toList
        from rfl]
      simp only [dataUrlChars, ht, List.append_assoc]
    have hsplit1 : splitFirstAt ',' (dataUrlChars contents ct) =
        some ("data:".toList ++ (mimeOf ct).toList ++ ";base64".toList,
          b64encodeChunks contents) := by
      have hnA : ',' ∉ "data:".toList ++ (mimeOf ct).toList ++
          ";base64".toList := by
        intro hx
        rcases List.mem_append.mp hx with hx | hx
        · rcases List.mem_append.mp hx with hx | hx
          · revert hx
            decide
          · exact hnc ',' hx rfl
        · revert hx
          decide
      have hshape : dataUrlChars contents ct =
          ("data:".toList ++ (mimeOf ct).toList ++ ";base64".toList) ++
            (',' :: b64encodeChunks contents) := by
        simp only [dataUrlChars, List.append_assoc]
        rfl
      rw [hshape, splitFirstAt_append ',' _ _ hnA, splitFirstAt_cons_self]
      simp
    have hsplit2 : splitFirstAt ':'
        ("data:".toList ++ (mimeOf ct).toList ++ ";base64".toList) =
        some ("data".toList, (mimeOf ct).toList ++ ";base64".toList) := by
      have hshape : "data:".toList ++ (mimeOf ct).toList ++
          ";base64".toList =
          "data".toList ++
            (':' :: ((mimeOf ct).toList ++ ";base64".toList)) := by
        simp only [List.append_assoc]
        rfl
      have hnd : ':' ∉ "data".toList := by decide
      rw [hshape, splitFirstAt_append ':' _ _ hnd, splitFirstAt_cons_self]
      simp
    have htw1 : ((mimeOf ct).toList ++ ";base64".toList).takeWhile
        (fun c => c ≠ ':') = (mimeOf ct).toList ++ ";base64".toList := by
      refine takeWhile_eq_self _ _ (fun x hx => ?_)
      rcases List.mem_append.mp hx with h | h
      · simpa using hncol x h
      · exact (by decide :
          ∀ y ∈ ";base64".toList, decide (y ≠ ':') = true) x h
    have htw2 : ((mimeOf ct).toList ++ ";base64".toList).takeWhile
        (fun c => c ≠ ';') = (mimeOf ct).toList := by
      rw [show ";base64".toList = ';' :: "base64".toList from rfl,
        takeWhile_append_all _ _ _ (fun x hx => by simpa using hns x hx)]
      simp [List.takeWhile_cons]
    simp only [downloadDataChars, hpre, if_true, hsplit1, hsplit2, htw1,
      htw2, pyB64decode_b64encode contents hb]
    rfl

/-- C6 counterexample: with `content_type = "image/x;y"` (truthy, starts
with `"image/"`, so it is used verbatim as the MIME type) the data URL
does not round-trip: the bytes come back but the parsed MIME type is
`"image/x"`, not `"image/x;y"`, because the parser cuts at the first
`';'`. -/
theorem data_url_roundtrip_counterexample :
    download_image_from_url_data
        (image_to_data_url [1, 2, 3] (some "image/x;y")) =
      some ([1, 2, 3], "image/x") ∧
    mimeOf (some "image/x;y") = "image/x;y" ∧
    ("image/x" : String) ≠ "image/x;y" := by
  refine ⟨by rfl, by rfl, by decide⟩

/-- C6 witness: a clean `image/png` content type round-trips exactly. -/
theorem data_url_roundtrip_witness :
    image_to_data_url [1, 2, 3] (some "image/png") =
      "data:" ++ mimeOf (some "image/png") ++ ";base64," ++
        b64encode [1, 2, 3] ∧
    download_image_from_url_data
        (image_to_data_url [1, 2, 3] (some "image/png")) =
      some ([1, 2, 3], mimeOf (some "image/png")) :=
  data_url_roundtrip [1, 2, 3] (some "image/png") (by decide) (by decide)
